import Mathlib

/-!
Verification of `nLoadOut::getModulePresence` from
`src/FakeFPGA/ChipObject/niLoadOut.cpp`.

The C++ function is a pure, stateless predicate deciding whether a
backplane module slot `(moduleType, moduleNumber)` exists.  We embed it
shallowly: the `uint8_t` parameter `moduleNumber` is modelled as a `Nat`
(the unsigned value; all comparisons in the source are value-level and
no arithmetic is performed, so no wraparound can occur), and the function
returns `Bool`, matching the C++ `bool` return type.  The function body
is a direct transcription of the `switch` statement, branch by branch,
including the redundant `moduleNumber >= 0` test of the Digital branch.
-/

namespace nLoadOut

/-- Modelled from the spec: the `tModuleType` enumeration is declared in
`NetworkCommunication/LoadOut.h`, a header that is not part of the provided
source.  The spec describes it as "an opaque closed enumeration with at
least those three values" (Analog, Digital, Solenoid) together with
possible further integer values (for example obtained via an unchecked
cast) that all fall through to the `default` branch of the switch.
`kModuleType_Other v` stands for any such out-of-enumeration or
additional enumerator value `v`. -/
inductive tModuleType : Type where
  | kModuleType_Analog : tModuleType
  | kModuleType_Digital : tModuleType
  | kModuleType_Solenoid : tModuleType
  | kModuleType_Other : Nat → tModuleType
deriving DecidableEq, Repr

open tModuleType

/-- Shallow embedding of `nLoadOut::getModulePresence` from
`src/FakeFPGA/ChipObject/niLoadOut.cpp`: a `switch` on the module type,
each branch a fixed comparison on the unsigned module number, with a
`default` branch returning `false`. -/
def getModulePresence (moduleType : tModuleType) (moduleNumber : Nat) : Bool :=
  match moduleType with
  | kModuleType_Analog => moduleNumber == 0
  | kModuleType_Digital => decide (moduleNumber ≤ 1) && decide (moduleNumber ≥ 0)
  | kModuleType_Solenoid => moduleNumber == 0
  | kModuleType_Other _ => false

/-- The spec's static capacity table (spec §3), written from the spec's
words for comparison with the implementation: Analog valid iff the number
is 0, Digital valid iff the number is at most 1, Solenoid valid iff the
number is 0, any other module type never valid. -/
def specValidSlot (moduleType : tModuleType) (moduleNumber : Nat) : Bool :=
  match moduleType with
  | kModuleType_Analog => moduleNumber == 0
  | kModuleType_Digital => moduleNumber ≤ 1
  | kModuleType_Solenoid => moduleNumber == 0
  | kModuleType_Other _ => false

/-- C1: for every module number `n`, `getModulePresence Analog n` returns
`true` if and only if `n = 0`. -/
theorem getModulePresence_analog (n : Nat) :
    getModulePresence kModuleType_Analog n = true ↔ n = 0 := by
  simp [getModulePresence]

/-- C2: for every module number `n`, `getModulePresence Digital n` returns
`true` if and only if `n = 0` or `n = 1`. -/
theorem getModulePresence_digital (n : Nat) :
    getModulePresence kModuleType_Digital n = true ↔ (n = 0 ∨ n = 1) := by
  simp [getModulePresence]
  omega

/-- C3: for every module number `n`, `getModulePresence Solenoid n`
returns `true` if and only if `n = 0`. -/
theorem getModulePresence_solenoid (n : Nat) :
    getModulePresence kModuleType_Solenoid n = true ↔ n = 0 := by
  simp [getModulePresence]

/-- C4: for every module type value outside the three named enumerators
(including out-of-enumeration integer values, modelled by
`kModuleType_Other v`) and every module number `n`, the function returns
`false`. -/
theorem getModulePresence_other (v n : Nat) :
    getModulePresence (kModuleType_Other v) n = false := rfl

/-- C5: `getModulePresence` is total over its declared input domain: for
every module type value and every unsigned module number it produces a
boolean result (the embedding is a total function into `Bool`, with no
error outcome: the C++ body contains no throw, assertion or failure
path), and whenever the spec's capacity table marks the input invalid or
unsupported, the result is the value `false` rather than an error. -/
theorem getModulePresence_total (t : tModuleType) (n : Nat) :
    (∃ b : Bool, getModulePresence t n = b) ∧
      (specValidSlot t n = false → getModulePresence t n = false) := by
  refine ⟨⟨getModulePresence t n, rfl⟩, ?_⟩
  cases t <;> simp [getModulePresence, specValidSlot]

/-- Witness for C5, at the unsupported module type value 7 and the
maximum representable `uint8_t` module number 255. -/
theorem getModulePresence_total_witness :
    getModulePresence (kModuleType_Other 7) 255 = false :=
  (getModulePresence_total (kModuleType_Other 7) 255).2 (by decide)

/-- C6: the concrete scenarios of spec §8 hold:
`getModulePresence Analog 0 = true`, `getModulePresence Analog 1 = false`,
`getModulePresence Digital 1 = true`,
`getModulePresence Digital 2 = false`, and
`getModulePresence Solenoid 0 = true`. -/
theorem getModulePresence_scenarios :
    getModulePresence kModuleType_Analog 0 = true ∧
    getModulePresence kModuleType_Analog 1 = false ∧
    getModulePresence kModuleType_Digital 1 = true ∧
    getModulePresence kModuleType_Digital 2 = false ∧
    getModulePresence kModuleType_Solenoid 0 = true := by
  decide

/-- C7: `getModulePresence` is deterministic and effect-free.  The C++
function reads only its two parameters and compile-time constants and
touches no state, so its shallow embedding is a pure function; any two
calls with identical `(moduleType, moduleNumber)` inputs return the
identical boolean result, and a call cannot influence the result of any
other call. -/
theorem getModulePresence_deterministic (t t' : tModuleType) (n n' : Nat)
    (ht : t = t') (hn : n = n') :
    getModulePresence t n = getModulePresence t' n' := by
  subst ht; subst hn; rfl

/-- Witness for C7: two textually separate calls at identical inputs
`(Digital, 1)` agree. -/
theorem getModulePresence_deterministic_witness :
    getModulePresence kModuleType_Digital 1 =
      getModulePresence kModuleType_Digital 1 :=
  getModulePresence_deterministic kModuleType_Digital kModuleType_Digital 1 1
    rfl rfl

/-- C8: the Digital branch's lower-bound comparison is redundant: over
the unsigned (Nat-valued) module number, the implemented test
`n <= 1 && n >= 0` equals the simplified test `n <= 1`, so
`getModulePresence Digital n = decide (n ≤ 1)`. -/
theorem getModulePresence_digital_redundant (n : Nat) :
    (decide (n ≤ 1) && decide (n ≥ 0)) = decide (n ≤ 1) ∧
      getModulePresence kModuleType_Digital n = decide (n ≤ 1) := by
  constructor <;> simp [getModulePresence]

/-- C9: implicit invariant: for every module type and module number `n`,
if `getModulePresence t n` returns `true` then `n ≤ 1`; no slot with
module number 2 or greater is ever reported present for any type. -/
theorem getModulePresence_le_one (t : tModuleType) (n : Nat)
    (h : getModulePresence t n = true) : n ≤ 1 := by
  cases t <;> simp [getModulePresence] at h <;> omega

/-- Witness for C9, at the present slot `(Digital, 1)`. -/
theorem getModulePresence_le_one_witness :
    getModulePresence kModuleType_Digital 1 = true ∧ (1 : Nat) ≤ 1 :=
  ⟨by decide, getModulePresence_le_one kModuleType_Digital 1 (by decide)⟩

/-- C10: implicit downward-closure: for every module type and module
number `n`, if `getModulePresence t (n + 1)` returns `true` then
`getModulePresence t n` returns `true` as well, so the set of present
module numbers of each type is a contiguous range starting at 0. -/
theorem getModulePresence_downward_closed (t : tModuleType) (n : Nat)
    (h : getModulePresence t (n + 1) = true) :
    getModulePresence t n = true := by
  cases t <;> simp [getModulePresence] at h ⊢
  omega

/-- Witness for C10: `(Digital, 1)` is present, hence so is
`(Digital, 0)`. -/
theorem getModulePresence_downward_closed_witness :
    getModulePresence kModuleType_Digital 0 = true :=
  getModulePresence_downward_closed kModuleType_Digital 0 (by decide)

end nLoadOut
